import Mathlib

/-!
Shallow embedding of the Sentinel-Tracker portfolio performance computation.

Sources:
- src/level1_tracker.py : console entry point (get_portfolio_summary,
  display_summary).
- src/level2_dashboard.py : dashboard entry point (parse_portfolio_input,
  get_realtime_data, and the aggregate block of app).

Python floats are modelled as rationals. A yfinance info dictionary entry
is modelled as an element of Option (Option Rat): the outer layer records
whether the key is present, the inner layer allows a present key to hold
None (which yfinance does produce). A value's Python truthiness is: absent
or None or zero is falsy, any other number truthy.
-/

namespace SentinelTracker

/-- The fields of the yfinance Ticker(t).info dictionary that the two entry
points read. The outer Option is key presence, the inner Option is the value
(none = the Python value None). -/
structure TickerInfo where
  regularMarketPrice : Option (Option ℚ)
  currentPrice : Option (Option ℚ)
  previousClose : Option (Option ℚ)
deriving DecidableEq

/-- Python d.get(key) with no default: absent keys give None, present keys
give their value. -/
def dictGet (x : Option (Option ℚ)) : Option ℚ := x.getD none

/-- level1_tracker.py line 32:
current_price = info.get(regularMarketPrice, info.get(currentPrice)).
A present regularMarketPrice key wins even if its value is None; only an
absent key falls back to currentPrice. -/
def level1CurrentPrice (info : TickerInfo) : Option ℚ :=
  info.regularMarketPrice.getD (dictGet info.currentPrice)

/-- level1_tracker.py line 33: previous_close = info.get(previousClose). -/
def level1PrevClose (info : TickerInfo) : Option ℚ :=
  dictGet info.previousClose

/-- One row appended to the data list in level1_tracker.py lines 52-63
(the Ticker column is omitted: no computation reads it). -/
structure Row1 where
  shares : ℚ
  current_price : ℚ
  prev_close : ℚ
  current_value : ℚ
  total_cost : ℚ
  daily_change_dollars : ℚ
  daily_percent : ℚ
  total_pl : ℚ
  total_pl_percent : ℚ
deriving DecidableEq

/-- level1_tracker.py lines 40-65, the per-position body of
get_portfolio_summary. The guard on line 40 is Python truthiness:
`if current_price and previous_close and shares > 0`, so an absent value,
a None value and a zero value all fail it the same way, and the row is
skipped (none). -/
def computeRow1 (info : TickerInfo) (shares avg_cost : ℚ) : Option Row1 :=
  match level1CurrentPrice info, level1PrevClose info with
  | some cp, some pc =>
      if cp ≠ 0 ∧ pc ≠ 0 ∧ 0 < shares then
        let current_value := cp * shares
        let total_cost := avg_cost * shares
        let daily_change_value := cp - pc
        let daily_change_percent := daily_change_value / pc * 100
        let profit_loss := current_value - total_cost
        some { shares := shares
               current_price := cp
               prev_close := pc
               current_value := current_value
               total_cost := total_cost
               daily_change_dollars := daily_change_value * shares
               daily_percent := daily_change_percent
               total_pl := profit_loss
               total_pl_percent :=
                 if total_cost > 0 then profit_loss / total_cost * 100 else 0 }
      else none
  | _, _ => none

/-- The data list built by the loop of get_portfolio_summary, one input per
fetched ticker: its info dictionary together with the shares and avg_cost
merged from the portfolio (lines 36-38; a ticker absent from the portfolio
merges shares = 0, avg_cost = 0, covered by arbitrary arguments). -/
def rows1 (stock : List (TickerInfo × ℚ × ℚ)) : List Row1 :=
  stock.filterMap fun p => computeRow1 p.1 p.2.1 p.2.2

/-- level1_tracker.py lines 67-71: `if not data: return None` else the
DataFrame of rows. -/
def get_portfolio_summary (stock : List (TickerInfo × ℚ × ℚ)) :
    Option (List Row1) :=
  let data := rows1 stock
  if data.isEmpty then none else some data

/-- The aggregate block computed over a non-empty DataFrame (level1 lines
100-116, level2 lines 211-217). Both entry points produce these six
quantities. -/
structure PortfolioTotals where
  total_value : ℚ
  total_cost : ℚ
  total_daily_gain : ℚ
  total_prev_value : ℚ
  portfolio_daily_percent : ℚ
  total_pl : ℚ
deriving DecidableEq

/-- level1_tracker.py lines 100-116 in display_summary: column sums, the
Prev Day Value column, the zero-guarded portfolio daily percent, and
total_profit_loss = total_value - total_cost. -/
def display_summary_totals (df : List Row1) : PortfolioTotals :=
  let total_value := (df.map Row1.current_value).sum
  let total_cost := (df.map Row1.total_cost).sum
  let total_daily_gain := (df.map Row1.daily_change_dollars).sum
  let total_prev_value := (df.map fun r => r.prev_close * r.shares).sum
  let portfolio_daily_percent :=
    if 0 < total_prev_value then total_daily_gain / total_prev_value * 100 else 0
  { total_value := total_value
    total_cost := total_cost
    total_daily_gain := total_daily_gain
    total_prev_value := total_prev_value
    portfolio_daily_percent := portfolio_daily_percent
    total_pl := total_value - total_cost }

/-- One raw line of the uploaded CSV: TICKER,SHARES,AVG_COST
(level2_dashboard.py lines 23-26). -/
structure RawRow where
  ticker : String
  shares : ℚ
  avg_cost : ℚ
deriving DecidableEq

/-- level2_dashboard.py lines 29-30 of parse_portfolio_input: keep rows with
Shares > 0, then uppercase and strip the ticker. (The set_index step is a
representation change and is not modelled.) -/
def parse_portfolio_input (rows : List RawRow) : List RawRow :=
  (rows.filter fun r => decide (0 < r.shares)).map
    fun r => { r with ticker := r.ticker.toUpper.trim }

/-- level2_dashboard.py line 58:
current_price = ticker_info.get(currentPrice) or ticker_info.get(regularMarketPrice).
Python `a or b` keeps a when it is truthy (a number other than None and 0),
else evaluates to b. -/
def level2CurrentPrice (info : TickerInfo) : Option ℚ :=
  match dictGet info.currentPrice with
  | some v => if v ≠ 0 then some v else dictGet info.regularMarketPrice
  | none => dictGet info.regularMarketPrice

/-- pd.notna on a scalar that is a number or None: None is na, any rational
is not. (Float NaN is not modelled: prices are numbers or absent.) -/
def notna (x : Option ℚ) : Bool := x.isSome

/-- One dictionary appended to results in level2_dashboard.py lines 74-86
(the Ticker column omitted as in Row1). -/
structure Row2 where
  shares : ℚ
  avg_cost : ℚ
  current_price : ℚ
  previous_close : ℚ
  current_value : ℚ
  total_cost : ℚ
  daily_gain_loss : ℚ
  daily_percent_change : ℚ
  total_pl : ℚ
  total_pl_percent : ℚ
deriving DecidableEq

/-- The one runtime error the computation body of get_realtime_data can
raise: ZeroDivisionError from `daily_change_value / prev_close` on line 68
when prev_close is 0. -/
inductive CompError
  | zeroDivision
deriving DecidableEq

/-- level2_dashboard.py lines 58-86: the computation inside the try block
for one portfolio row. Both notna checks passing with prev_close = 0
reaches the division on line 68 and raises. There is no shares > 0 check
here: that filtering happened in parse_portfolio_input. -/
def computeRow2 (info : TickerInfo) (shares avg_cost : ℚ) :
    Except CompError (Option Row2) :=
  let current_price := level2CurrentPrice info
  let prev_close := dictGet info.previousClose
  if notna current_price && notna prev_close then
    match current_price, prev_close with
    | some cp, some pc =>
        if pc = 0 then Except.error CompError.zeroDivision
        else
          let current_value := cp * shares
          let total_cost := avg_cost * shares
          let daily_change_value := cp - pc
          let daily_gain_loss := daily_change_value * shares
          let daily_percent_change := daily_change_value / pc * 100
          let total_pl := current_value - total_cost
          let total_pl_percent :=
            if 0 < total_cost then total_pl / total_cost * 100 else 0
          Except.ok (some { shares := shares
                            avg_cost := avg_cost
                            current_price := cp
                            previous_close := pc
                            current_value := current_value
                            total_cost := total_cost
                            daily_gain_loss := daily_gain_loss
                            daily_percent_change := daily_percent_change
                            total_pl := total_pl
                            total_pl_percent := total_pl_percent })
    | _, _ => Except.ok none
  else Except.ok none

/-- The try/except around the body (level2 lines 55-91): any raised error is
caught and converted into a skip warning, so the row contributes nothing. -/
def processRow2 (info : TickerInfo) (shares avg_cost : ℚ) : Option Row2 :=
  match computeRow2 info shares avg_cost with
  | Except.ok r => r
  | Except.error _ => none

/-- The results list built by the loop of get_realtime_data, one input per
parsed portfolio row (its fetched info, shares, avg_cost). -/
def rows2 (l : List (TickerInfo × ℚ × ℚ)) : List Row2 :=
  l.filterMap fun p => processRow2 p.1 p.2.1 p.2.2

/-- level2_dashboard.py lines 93-96: `if not results: return None` else the
DataFrame of results. -/
def get_realtime_data (l : List (TickerInfo × ℚ × ℚ)) : Option (List Row2) :=
  let results := rows2 l
  if results.isEmpty then none else some results

/-- level2_dashboard.py lines 211-217, the Global Metrics Calculation block
of app: column sums and the zero-guarded portfolio daily percent. Here
total_pl is the sum of the Total P/L column. -/
def app_totals (df : List Row2) : PortfolioTotals :=
  let total_value := (df.map Row2.current_value).sum
  let total_cost := (df.map Row2.total_cost).sum
  let total_daily_gain := (df.map Row2.daily_gain_loss).sum
  let total_pl := (df.map Row2.total_pl).sum
  let total_prev_value := (df.map fun r => r.previous_close * r.shares).sum
  let portfolio_daily_percent :=
    if 0 < total_prev_value then total_daily_gain / total_prev_value * 100 else 0
  { total_value := total_value
    total_cost := total_cost
    total_daily_gain := total_daily_gain
    total_prev_value := total_prev_value
    portfolio_daily_percent := portfolio_daily_percent
    total_pl := total_pl }

/-- The metric fields common to the two entry points, for comparing them. -/
structure PositionMetrics where
  shares : ℚ
  current_price : ℚ
  previous_close : ℚ
  current_value : ℚ
  total_cost : ℚ
  daily_gain : ℚ
  daily_percent : ℚ
  total_pl : ℚ
  total_pl_percent : ℚ
deriving DecidableEq

/-- The common metrics of a console row. -/
def Row1.metrics (r : Row1) : PositionMetrics :=
  { shares := r.shares
    current_price := r.current_price
    previous_close := r.prev_close
    current_value := r.current_value
    total_cost := r.total_cost
    daily_gain := r.daily_change_dollars
    daily_percent := r.daily_percent
    total_pl := r.total_pl
    total_pl_percent := r.total_pl_percent }

/-- The common metrics of a dashboard row. -/
def Row2.metrics (r : Row2) : PositionMetrics :=
  { shares := r.shares
    current_price := r.current_price
    previous_close := r.previous_close
    current_value := r.current_value
    total_cost := r.total_cost
    daily_gain := r.daily_gain_loss
    daily_percent := r.daily_percent_change
    total_pl := r.total_pl
    total_pl_percent := r.total_pl_percent }

/-- An info-dictionary value that, once resolved by dictGet, is either
absent or a positive price — the Quote well-formedness of the data model
(prices are positive or absent). -/
def posOrAbsent : Option ℚ → Prop
  | none => True
  | some v => 0 < v

end SentinelTracker

namespace SentinelTracker

/-! Helper lemmas shared by the claim theorems. -/

lemma computeRow1_eq (info : TickerInfo) (shares avg_cost cp pc : ℚ)
    (h1 : level1CurrentPrice info = some cp)
    (h2 : dictGet info.previousClose = some pc)
    (hcp : cp ≠ 0) (hpc : pc ≠ 0) (hsh : 0 < shares) :
    computeRow1 info shares avg_cost = some
      { shares := shares, current_price := cp, prev_close := pc,
        current_value := cp * shares, total_cost := avg_cost * shares,
        daily_change_dollars := (cp - pc) * shares,
        daily_percent := (cp - pc) / pc * 100,
        total_pl := cp * shares - avg_cost * shares,
        total_pl_percent := if avg_cost * shares > 0
          then (cp * shares - avg_cost * shares) / (avg_cost * shares) * 100
          else 0 } := by
  simp only [computeRow1, level1PrevClose, h1, h2]
  rw [if_pos ⟨hcp, hpc, hsh⟩]

lemma computeRow2_eq (info : TickerInfo) (shares avg_cost cp pc : ℚ)
    (h1 : level2CurrentPrice info = some cp)
    (h2 : dictGet info.previousClose = some pc)
    (hpc : pc ≠ 0) :
    computeRow2 info shares avg_cost = Except.ok (some
      { shares := shares, avg_cost := avg_cost,
        current_price := cp, previous_close := pc,
        current_value := cp * shares, total_cost := avg_cost * shares,
        daily_gain_loss := (cp - pc) * shares,
        daily_percent_change := (cp - pc) / pc * 100,
        total_pl := cp * shares - avg_cost * shares,
        total_pl_percent := if 0 < avg_cost * shares
          then (cp * shares - avg_cost * shares) / (avg_cost * shares) * 100
          else 0 }) := by
  simp only [computeRow2, h1, h2, notna, Option.isSome_some, Bool.and_self, if_true]
  rw [if_neg hpc]

lemma computeRow2_zero_prev (info : TickerInfo) (shares avg_cost : ℚ)
    (h1 : (level2CurrentPrice info).isSome = true)
    (h2 : dictGet info.previousClose = some 0) :
    computeRow2 info shares avg_cost = Except.error CompError.zeroDivision := by
  obtain ⟨cp, hcp⟩ := Option.isSome_iff_exists.mp h1
  simp only [computeRow2, hcp, h2, notna, Option.isSome_some, Bool.and_self, if_true]

lemma computeRow1_zero_prev (info : TickerInfo) (shares avg_cost : ℚ)
    (h : level1PrevClose info = some 0) :
    computeRow1 info shares avg_cost = none := by
  rcases h1 : level1CurrentPrice info with _ | cp <;> simp [computeRow1, h1, h]

lemma computeRow1_zero_cp (info : TickerInfo) (shares avg_cost : ℚ)
    (h : level1CurrentPrice info = some 0) :
    computeRow1 info shares avg_cost = none := by
  rcases h2 : level1PrevClose info with _ | pc <;> simp [computeRow1, h, h2]

lemma rows1_cons_none (p : TickerInfo × ℚ × ℚ) (l : List (TickerInfo × ℚ × ℚ))
    (h : computeRow1 p.1 p.2.1 p.2.2 = none) : rows1 (p :: l) = rows1 l := by
  simp [rows1, List.filterMap_cons, h]

lemma rows2_cons_none (p : TickerInfo × ℚ × ℚ) (l : List (TickerInfo × ℚ × ℚ))
    (h : processRow2 p.1 p.2.1 p.2.2 = none) : rows2 (p :: l) = rows2 l := by
  simp [rows2, List.filterMap_cons, h]

lemma posOrAbsent_level1CP (info : TickerInfo)
    (h1 : posOrAbsent (dictGet info.regularMarketPrice))
    (h2 : posOrAbsent (dictGet info.currentPrice)) :
    posOrAbsent (level1CurrentPrice info) := by
  unfold level1CurrentPrice
  cases hr : info.regularMarketPrice with
  | none => simpa [dictGet] using h2
  | some x => simpa [dictGet, hr] using h1

lemma posOrAbsent_level2CP (info : TickerInfo)
    (h1 : posOrAbsent (dictGet info.regularMarketPrice))
    (h2 : posOrAbsent (dictGet info.currentPrice)) :
    posOrAbsent (level2CurrentPrice info) := by
  unfold level2CurrentPrice
  cases hc : dictGet info.currentPrice with
  | none => exact h1
  | some v =>
    by_cases hv : v = 0
    · simp [hv]
      exact h1
    · simp [hv]
      rw [hc] at h2
      exact h2

end SentinelTracker

namespace SentinelTracker

/-- C1: for all valid inputs with previous_close nonzero and shares positive,
the per-position computation of both entry points returns a row whose
current value minus total cost equals its total profit/loss, and whose
daily change value equals (current_price - previous_close) * shares,
exactly. -/
theorem position_value_identities (info : TickerInfo) (shares avg_cost cp pc : ℚ)
    (hcp : 0 < cp) (hpc : pc ≠ 0) (hsh : 0 < shares)
    (hprev : dictGet info.previousClose = some pc) :
    (level1CurrentPrice info = some cp →
      ∃ r : Row1, computeRow1 info shares avg_cost = some r ∧
        r.current_value - r.total_cost = r.total_pl ∧
        r.daily_change_dollars = (cp - pc) * shares) ∧
    (level2CurrentPrice info = some cp →
      ∃ r : Row2, computeRow2 info shares avg_cost = Except.ok (some r) ∧
        r.current_value - r.total_cost = r.total_pl ∧
        r.daily_gain_loss = (cp - pc) * shares) := by
  constructor
  · intro h1
    exact ⟨_, computeRow1_eq info shares avg_cost cp pc h1 hprev hcp.ne' hpc hsh, rfl, rfl⟩
  · intro h1
    exact ⟨_, computeRow2_eq info shares avg_cost cp pc h1 hprev hpc, rfl, rfl⟩

/-- Witness for C1 at current_price 110, previous_close 108, shares 10,
avg_cost 100. -/
theorem position_value_identities_witness :
    (∃ r : Row1, computeRow1 ⟨some (some 110), none, some (some 108)⟩ 10 100 = some r ∧
        r.current_value - r.total_cost = r.total_pl ∧
        r.daily_change_dollars = (110 - 108) * 10) ∧
    (∃ r : Row2, computeRow2 ⟨some (some 110), none, some (some 108)⟩ 10 100 =
        Except.ok (some r) ∧
        r.current_value - r.total_cost = r.total_pl ∧
        r.daily_gain_loss = (110 - 108) * 10) :=
  ⟨(position_value_identities ⟨some (some 110), none, some (some 108)⟩ 10 100 110 108
      (by norm_num) (by norm_num) (by norm_num) rfl).1 rfl,
   (position_value_identities ⟨some (some 110), none, some (some 108)⟩ 10 100 110 108
      (by norm_num) (by norm_num) (by norm_num) rfl).2 rfl⟩

/-- C2: for every accepted holding and quote (current price positive,
previous close nonzero, shares positive, avg_cost nonnegative as the data
model requires), both entry points return total_pl_percent 0 when
total_cost is 0, and total_pl / total_cost * 100 otherwise. -/
theorem total_pl_percent_zero_cost_guard (info : TickerInfo) (shares avg_cost cp pc : ℚ)
    (hcp : 0 < cp) (hpc : pc ≠ 0) (hsh : 0 < shares) (hac : 0 ≤ avg_cost)
    (hprev : dictGet info.previousClose = some pc) :
    (level1CurrentPrice info = some cp →
      ∃ r : Row1, computeRow1 info shares avg_cost = some r ∧
        (r.total_cost = 0 → r.total_pl_percent = 0) ∧
        (r.total_cost ≠ 0 → r.total_pl_percent = r.total_pl / r.total_cost * 100)) ∧
    (level2CurrentPrice info = some cp →
      ∃ r : Row2, computeRow2 info shares avg_cost = Except.ok (some r) ∧
        (r.total_cost = 0 → r.total_pl_percent = 0) ∧
        (r.total_cost ≠ 0 → r.total_pl_percent = r.total_pl / r.total_cost * 100)) := by
  constructor
  · intro h1
    refine ⟨_, computeRow1_eq info shares avg_cost cp pc h1 hprev hcp.ne' hpc hsh, ?_, ?_⟩
    · intro h
      simp only at h ⊢
      rw [if_neg]
      rw [h]
      exact lt_irrefl 0
    · intro h
      simp only at h ⊢
      rw [if_pos]
      exact lt_of_le_of_ne (mul_nonneg hac hsh.le) (Ne.symm h)
  · intro h1
    refine ⟨_, computeRow2_eq info shares avg_cost cp pc h1 hprev hpc, ?_, ?_⟩
    · intro h
      simp only at h ⊢
      rw [if_neg]
      rw [h]
      exact lt_irrefl 0
    · intro h
      simp only at h ⊢
      rw [if_pos]
      exact lt_of_le_of_ne (mul_nonneg hac hsh.le) (Ne.symm h)

/-- Witness for C2 at avg_cost 0 (gifted shares): both rows have
total_cost 0 and hence total_pl_percent 0. -/
theorem total_pl_percent_zero_cost_guard_witness :
    (∃ r : Row1, computeRow1 ⟨some (some 110), none, some (some 108)⟩ 10 0 = some r ∧
        (r.total_cost = 0 → r.total_pl_percent = 0) ∧
        (r.total_cost ≠ 0 → r.total_pl_percent = r.total_pl / r.total_cost * 100)) ∧
    (∃ r : Row2, computeRow2 ⟨some (some 110), none, some (some 108)⟩ 10 0 =
        Except.ok (some r) ∧
        (r.total_cost = 0 → r.total_pl_percent = 0) ∧
        (r.total_cost ≠ 0 → r.total_pl_percent = r.total_pl / r.total_cost * 100)) :=
  ⟨(total_pl_percent_zero_cost_guard ⟨some (some 110), none, some (some 108)⟩ 10 0 110 108
      (by norm_num) (by norm_num) (by norm_num) (by norm_num) rfl).1 rfl,
   (total_pl_percent_zero_cost_guard ⟨some (some 110), none, some (some 108)⟩ 10 0 110 108
      (by norm_num) (by norm_num) (by norm_num) (by norm_num) rfl).2 rfl⟩

end SentinelTracker

namespace SentinelTracker

/-- C3 counterexample: the claim says a position with previous_close 0 and
current_price present raises a computation error distinct from the
missing-data skip. In the console entry point the truthiness guard rejects
the zero value: at current_price 110 (present), previous_close 0, shares 10,
avg_cost 100 the computation returns none — the very same skip value it
returns when previous_close is absent — and no error of any kind exists in
its codomain. -/
theorem zero_prev_close_counterexample :
    computeRow1 ⟨some (some 110), none, some (some 0)⟩ 10 100 = none ∧
    computeRow1 ⟨some (some 110), none, none⟩ 10 100 = none :=
  ⟨computeRow1_zero_prev ⟨some (some 110), none, some (some 0)⟩ 10 100 rfl, rfl⟩

/-- C3 amended: a position with previous_close 0 and current_price present
is not surfaced as a distinct computation error. The console entry point
treats it exactly like missing data and skips it; the dashboard entry
point's division by previous_close raises ZeroDivisionError, which the
surrounding try/except catches and reports as a per-ticker skip warning
(the row contributes nothing). -/
theorem zero_prev_close_skipped_not_distinct (info : TickerInfo) (shares avg_cost : ℚ) :
    (level1PrevClose info = some 0 → computeRow1 info shares avg_cost = none) ∧
    (dictGet info.previousClose = some 0 → (level2CurrentPrice info).isSome = true →
      computeRow2 info shares avg_cost = Except.error CompError.zeroDivision ∧
      processRow2 info shares avg_cost = none) := by
  refine ⟨computeRow1_zero_prev info shares avg_cost, ?_⟩
  intro h2 h1
  refine ⟨computeRow2_zero_prev info shares avg_cost h1 h2, ?_⟩
  simp [processRow2, computeRow2_zero_prev info shares avg_cost h1 h2]

/-- Witness for the amended C3 at current_price 110 present,
previous_close 0. -/
theorem zero_prev_close_skipped_not_distinct_witness :
    computeRow1 ⟨none, some (some 110), some (some 0)⟩ 10 100 = none ∧
    computeRow2 ⟨none, some (some 110), some (some 0)⟩ 10 100 =
      Except.error CompError.zeroDivision :=
  ⟨(zero_prev_close_skipped_not_distinct ⟨none, some (some 110), some (some 0)⟩ 10 100).1 rfl,
   ((zero_prev_close_skipped_not_distinct ⟨none, some (some 110), some (some 0)⟩ 10 100).2
     rfl rfl).1⟩

/-- C4: when every holding is skipped, both entry points return None (the
no-valid-data signal), never a zero-filled result. -/
theorem all_skipped_signals_no_valid_data (l1 l2 : List (TickerInfo × ℚ × ℚ))
    (h1 : ∀ p ∈ l1, computeRow1 p.1 p.2.1 p.2.2 = none)
    (h2 : ∀ p ∈ l2, processRow2 p.1 p.2.1 p.2.2 = none) :
    get_portfolio_summary l1 = none ∧ get_realtime_data l2 = none := by
  constructor
  · have h : rows1 l1 = [] := List.filterMap_eq_nil_iff.mpr h1
    simp [get_portfolio_summary, h]
  · have h : rows2 l2 = [] := List.filterMap_eq_nil_iff.mpr h2
    simp [get_realtime_data, h]

/-- Witness for C4: a single holding whose quote is entirely absent. -/
theorem all_skipped_signals_no_valid_data_witness :
    get_portfolio_summary [(⟨none, none, none⟩, 10, 100)] = none ∧
    get_realtime_data [(⟨none, none, none⟩, 10, 100)] = none :=
  all_skipped_signals_no_valid_data _ _
    (by intro p hp; simp only [List.mem_singleton] at hp; subst hp; rfl)
    (by intro p hp; simp only [List.mem_singleton] at hp; subst hp; rfl)

end SentinelTracker

namespace SentinelTracker

/-- C5: under the data-model well-formedness that present prices are
positive, a holding is included by the console computation iff its resolved
current price and previous close are present and shares are positive; a
skipped holding contributes nothing to any aggregate total in either entry
point; the dashboard computation includes a row iff its resolved current
price and previous close are present, its shares > 0 condition having been
enforced upstream: every row surviving parse_portfolio_input has positive
shares. -/
theorem inclusion_iff_complete_quote (info : TickerInfo) (shares avg_cost : ℚ)
    (hrmp : posOrAbsent (dictGet info.regularMarketPrice))
    (hcpv : posOrAbsent (dictGet info.currentPrice))
    (hpcv : posOrAbsent (dictGet info.previousClose)) :
    ((computeRow1 info shares avg_cost).isSome = true ↔
      ((level1CurrentPrice info).isSome = true ∧
       (level1PrevClose info).isSome = true ∧ 0 < shares)) ∧
    (∀ l, computeRow1 info shares avg_cost = none →
      display_summary_totals (rows1 ((info, shares, avg_cost) :: l)) =
        display_summary_totals (rows1 l) ∧
      get_portfolio_summary ((info, shares, avg_cost) :: l) =
        get_portfolio_summary l) ∧
    ((processRow2 info shares avg_cost).isSome = true ↔
      ((level2CurrentPrice info).isSome = true ∧
       (dictGet info.previousClose).isSome = true)) ∧
    (∀ l, processRow2 info shares avg_cost = none →
      app_totals (rows2 ((info, shares, avg_cost) :: l)) = app_totals (rows2 l) ∧
      get_realtime_data ((info, shares, avg_cost) :: l) = get_realtime_data l) ∧
    (∀ (raw : List RawRow) (r : RawRow), r ∈ parse_portfolio_input raw → 0 < r.shares) := by
  have hl1 := posOrAbsent_level1CP info hrmp hcpv
  refine ⟨?_, ?_, ?_, ?_, ?_⟩
  · rcases h1 : level1CurrentPrice info with _ | cp
    · simp [computeRow1, h1]
    · rcases h2 : level1PrevClose info with _ | pc
      · simp [computeRow1, h1, h2]
      · rw [h1] at hl1
        have hcp : 0 < cp := hl1
        have hpc : 0 < pc := by
          have h := hpcv
          rw [show dictGet info.previousClose = level1PrevClose info from rfl, h2] at h
          exact h
        by_cases hs : 0 < shares
        · simp [computeRow1, h1, h2, hcp.ne', hpc.ne', hs]
        · simp [computeRow1, h1, h2, hcp.ne', hpc.ne', hs]
  · intro l hnone
    exact ⟨by rw [rows1_cons_none (info, shares, avg_cost) l hnone],
      by simp only [get_portfolio_summary, rows1_cons_none (info, shares, avg_cost) l hnone]⟩
  · rcases h1 : level2CurrentPrice info with _ | cp
    · simp [processRow2, computeRow2, h1, notna]
    · rcases h2 : dictGet info.previousClose with _ | pc
      · simp [processRow2, computeRow2, h1, h2, notna]
      · have hpc : 0 < pc := by rw [h2] at hpcv; exact hpcv
        simp [processRow2, computeRow2_eq info shares avg_cost cp pc h1 h2 hpc.ne', h1, h2]
  · intro l hnone
    exact ⟨by rw [rows2_cons_none (info, shares, avg_cost) l hnone],
      by simp only [get_realtime_data, rows2_cons_none (info, shares, avg_cost) l hnone]⟩
  · intro raw r hr
    simp only [parse_portfolio_input, List.mem_map, List.mem_filter] at hr
    obtain ⟨a, ⟨_, ha⟩, rfl⟩ := hr
    simpa using ha

/-- Witness for C5 at a complete positive quote with 10 shares. -/
theorem inclusion_iff_complete_quote_witness :
    (computeRow1 ⟨some (some 110), none, some (some 108)⟩ 10 100).isSome = true ↔
      ((level1CurrentPrice ⟨some (some 110), none, some (some 108)⟩).isSome = true ∧
       (level1PrevClose ⟨some (some 110), none, some (some 108)⟩).isSome = true ∧
       (0 : ℚ) < 10) :=
  (inclusion_iff_complete_quote ⟨some (some 110), none, some (some 108)⟩ 10 100
    (by norm_num [posOrAbsent, dictGet]) (by simp [posOrAbsent, dictGet])
    (by norm_num [posOrAbsent, dictGet])).1

/-- C6: both aggregate computations are invariant under any permutation of
their input rows: every field of the totals is a sum (or a function of
sums) and is unchanged by reordering. -/
theorem aggregate_perm_invariant (df1 df2 : List Row1) (dg1 dg2 : List Row2)
    (h1 : df1.Perm df2) (h2 : dg1.Perm dg2) :
    display_summary_totals df1 = display_summary_totals df2 ∧
    app_totals dg1 = app_totals dg2 := by
  constructor
  · have e1 := (h1.map Row1.current_value).sum_eq
    have e2 := (h1.map Row1.total_cost).sum_eq
    have e3 := (h1.map Row1.daily_change_dollars).sum_eq
    have e4 := (h1.map fun r => r.prev_close * r.shares).sum_eq
    simp [display_summary_totals, e1, e2, e3, e4]
  · have e1 := (h2.map Row2.current_value).sum_eq
    have e2 := (h2.map Row2.total_cost).sum_eq
    have e3 := (h2.map Row2.daily_gain_loss).sum_eq
    have e4 := (h2.map Row2.total_pl).sum_eq
    have e5 := (h2.map fun r => r.previous_close * r.shares).sum_eq
    simp [app_totals, e1, e2, e3, e4, e5]

/-- Witness for C6: swapping two concrete rows leaves both totals
unchanged. -/
theorem aggregate_perm_invariant_witness :
    display_summary_totals [⟨1, 2, 3, 4, 5, 6, 7, 8, 9⟩, ⟨9, 8, 7, 6, 5, 4, 3, 2, 1⟩] =
      display_summary_totals [⟨9, 8, 7, 6, 5, 4, 3, 2, 1⟩, ⟨1, 2, 3, 4, 5, 6, 7, 8, 9⟩] ∧
    app_totals [⟨1, 2, 3, 4, 5, 6, 7, 8, 9, 10⟩, ⟨10, 9, 8, 7, 6, 5, 4, 3, 2, 1⟩] =
      app_totals [⟨10, 9, 8, 7, 6, 5, 4, 3, 2, 1⟩, ⟨1, 2, 3, 4, 5, 6, 7, 8, 9, 10⟩] :=
  aggregate_perm_invariant _ _ _ _ (List.Perm.swap _ _ _) (List.Perm.swap _ _ _)

end SentinelTracker

namespace SentinelTracker

/-- C7: a holding with zero shares is always excluded, whatever the quote:
the console computation returns the skip value for shares 0, and in the
dashboard pipeline a zero-share row is dropped by parse_portfolio_input
before any quote is fetched, so it contributes nothing downstream. -/
theorem zero_shares_always_skipped :
    (∀ (info : TickerInfo) (avg_cost : ℚ), computeRow1 info 0 avg_cost = none) ∧
    (∀ (l1 l2 : List RawRow) (r : RawRow), r.shares = 0 →
      parse_portfolio_input (l1 ++ r :: l2) = parse_portfolio_input (l1 ++ l2)) := by
  constructor
  · intro info avg_cost
    rcases h1 : level1CurrentPrice info with _ | cp <;>
      rcases h2 : level1PrevClose info with _ | pc <;>
      simp [computeRow1, h1, h2]
  · intro l1 l2 r hr
    simp [parse_portfolio_input, List.filter_append, List.filter_cons, hr]

/-- Witness for C7: a zero-share holding with a complete quote is skipped
by the console, and a zero-share CSV row vanishes from the parsed
portfolio. -/
theorem zero_shares_always_skipped_witness :
    computeRow1 ⟨some (some 110), none, some (some 108)⟩ 0 100 = none ∧
    parse_portfolio_input [⟨ " aapl ", 0, 170⟩] = parse_portfolio_input [] :=
  ⟨zero_shares_always_skipped.1 ⟨some (some 110), none, some (some 108)⟩ 100,
   zero_shares_always_skipped.2 [] [] ⟨ " aapl ", 0, 170⟩ rfl⟩

/-- C8: end-to-end scenario 1. Holding shares 10, avg_cost 100; quote
current_price 110, previous_close 108. Both entry points produce
current_value 1100, total_cost 1000, total_pl 100, total_pl_percent 10,
daily change value 20, and daily change percent within 0.01 of 1.85. -/
theorem scenario1_metrics :
    (∃ r : Row1, computeRow1 ⟨some (some 110), none, some (some 108)⟩ 10 100 = some r ∧
      r.current_value = 1100 ∧ r.total_cost = 1000 ∧ r.total_pl = 100 ∧
      r.total_pl_percent = 10 ∧ r.daily_change_dollars = 20 ∧
      |r.daily_percent - 185 / 100| < 1 / 100) ∧
    (∃ r : Row2, computeRow2 ⟨some (some 110), none, some (some 108)⟩ 10 100 =
        Except.ok (some r) ∧
      r.current_value = 1100 ∧ r.total_cost = 1000 ∧ r.total_pl = 100 ∧
      r.total_pl_percent = 10 ∧ r.daily_gain_loss = 20 ∧
      |r.daily_percent_change - 185 / 100| < 1 / 100) := by
  constructor
  · refine ⟨_, computeRow1_eq ⟨some (some 110), none, some (some 108)⟩ 10 100 110 108 rfl rfl
      (by norm_num) (by norm_num) (by norm_num), ?_, ?_, ?_, ?_, ?_, ?_⟩ <;>
      norm_num [abs]
  · refine ⟨_, computeRow2_eq ⟨some (some 110), none, some (some 108)⟩ 10 100 110 108 rfl rfl
      (by norm_num), ?_, ?_, ?_, ?_, ?_, ?_⟩ <;>
      norm_num [abs]

/-- C9: when the info dictionary holds equal positive values under both the
currentPrice and regularMarketPrice keys (and a positive previousClose),
the two entry points — despite their opposite fallback orders — produce
identical position metrics for the same accepted holding. -/
theorem entry_points_agree_on_consistent_quote (info : TickerInfo)
    (v pc shares avg_cost : ℚ)
    (hcp : info.currentPrice = some (some v))
    (hrmp : info.regularMarketPrice = some (some v))
    (hv : 0 < v) (hpc : info.previousClose = some (some pc))
    (hpcpos : 0 < pc) (hsh : 0 < shares) :
    ∃ (r1 : Row1) (r2 : Row2),
      computeRow1 info shares avg_cost = some r1 ∧
      computeRow2 info shares avg_cost = Except.ok (some r2) ∧
      r1.metrics = r2.metrics := by
  have h1 : level1CurrentPrice info = some v := by
    simp [level1CurrentPrice, hrmp]
  have h2 : level2CurrentPrice info = some v := by
    simp [level2CurrentPrice, hcp, dictGet, hv.ne']
  have h3 : dictGet info.previousClose = some pc := by
    simp [dictGet, hpc]
  exact ⟨_, _, computeRow1_eq info shares avg_cost v pc h1 h3 hv.ne' hpcpos.ne' hsh,
    computeRow2_eq info shares avg_cost v pc h2 h3 hpcpos.ne', rfl⟩

/-- Witness for C9: both keys hold 110, previousClose 108, shares 10. -/
theorem entry_points_agree_on_consistent_quote_witness :
    ∃ (r1 : Row1) (r2 : Row2),
      computeRow1 ⟨some (some 110), some (some 110), some (some 108)⟩ 10 100 = some r1 ∧
      computeRow2 ⟨some (some 110), some (some 110), some (some 108)⟩ 10 100 =
        Except.ok (some r2) ∧
      r1.metrics = r2.metrics :=
  entry_points_agree_on_consistent_quote ⟨some (some 110), some (some 110), some (some 108)⟩
    110 108 10 100 rfl rfl (by norm_num) rfl (by norm_num) (by norm_num)

/-- C10: in the console entry point a quote value that is present but zero
is treated exactly like missing data: the computation returns the same skip
value none that a fully absent quote produces (its codomain has no error),
and the position contributes nothing to any aggregate. -/
theorem present_zero_like_missing_console (info : TickerInfo) (shares avg_cost : ℚ)
    (h : level1CurrentPrice info = some 0 ∨ level1PrevClose info = some 0) :
    computeRow1 info shares avg_cost = none ∧
    computeRow1 info shares avg_cost = computeRow1 ⟨none, none, none⟩ shares avg_cost ∧
    (∀ l, display_summary_totals (rows1 ((info, shares, avg_cost) :: l)) =
      display_summary_totals (rows1 l)) ∧
    (∀ l, get_portfolio_summary ((info, shares, avg_cost) :: l) =
      get_portfolio_summary l) := by
  have hnone : computeRow1 info shares avg_cost = none := by
    rcases h with h | h
    · exact computeRow1_zero_cp info shares avg_cost h
    · exact computeRow1_zero_prev info shares avg_cost h
  refine ⟨hnone, by rw [hnone]; rfl, ?_, ?_⟩
  · intro l
    rw [rows1_cons_none (info, shares, avg_cost) l hnone]
  · intro l
    simp only [get_portfolio_summary, rows1_cons_none (info, shares, avg_cost) l hnone]

/-- Witness for C10: a present current price of 0 with previous close 108
yields the same skip as a fully absent quote. -/
theorem present_zero_like_missing_console_witness :
    computeRow1 ⟨some (some 0), none, some (some 108)⟩ 10 100 = none ∧
    computeRow1 ⟨some (some 0), none, some (some 108)⟩ 10 100 =
      computeRow1 ⟨none, none, none⟩ 10 100 :=
  ⟨(present_zero_like_missing_console ⟨some (some 0), none, some (some 108)⟩ 10 100
      (Or.inl rfl)).1,
   (present_zero_like_missing_console ⟨some (some 0), none, some (some 108)⟩ 10 100
      (Or.inl rfl)).2.1⟩

end SentinelTracker
